/-
Verification of the session-state engine of the band-dropbox-api-client
repository.  The definitions below are a shallow embedding of the Python
source:

  * src/src/app.py    — the Textual application (session state, interaction
                        handlers, startup orchestration, entry processing)
  * src/src/util.py   — strip_suffix / contains_any_substring
  * src/src/config.py — the AppConfig dataclass

Python data structures are embedded as follows: the selection `set` becomes
a `Finset String`; the instrument-count `dict` becomes an association list
`List (String × Int)` with Python-dict update semantics (update in place
when the key is present, append otherwise; absence reads as 0); the action
history list (append/pop at the end) becomes a `List Action` with the most
recent action at the head.  UI-widget calls have no session-state effect
except for the highlight-index clamping performed by the two refresh
helpers, which is modelled explicitly.
-/
import Mathlib

namespace BandDropbox

/-- Action records pushed on the undo history: `selection` embeds the Python
`SelectionAction` named tuple (entry, previous_state) and `instrument`
embeds `InstrumentAction` (entry, delta), from src/src/app.py. -/
inductive Action where
  | selection (entry : String) (previousState : Bool)
  | instrument (entry : String) (delta : Int)
deriving DecidableEq, Repr

/-- SessionState embeds the mutable fields of `BandDropboxApp.__init__`
(src/src/app.py): `_library_entries`, `_selected_entries`,
`_highlight_index`, `_instrument_entries`, `_instrument_counts`,
`_instrument_highlight_index`, `_action_history`. -/
structure SessionState where
  libraryEntries : List String
  selectedEntries : Finset String
  highlightIndex : Nat
  instrumentEntries : List String
  instrumentCounts : List (String × Int)
  instrumentHighlightIndex : Nat
  actionHistory : List Action
deriving DecidableEq

/-- Python `dict.get(key, 0)` on the instrument-count mapping. -/
def dget : List (String × Int) → String → Int
  | [], _ => 0
  | (k, v) :: rest, q => if k = q then v else dget rest q

/-- Python `d[key] = value` on the instrument-count mapping: replace the
value of the first matching key in place, append at the end otherwise. -/
def dset : List (String × Int) → String → Int → List (String × Int)
  | [], k, v => [(k, v)]
  | (k', v') :: rest, k, v =>
      if k' = k then (k', v) :: rest else (k', v') :: dset rest k v

/-- Python `for entry in d.keys(): d[entry] = 0` from
`_clear_all_selections`: every stored value becomes 0, keys kept. -/
def dzero (d : List (String × Int)) : List (String × Int) :=
  d.map (fun p => (p.1, 0))

/-- Python dict comprehension `{entry: old.get(entry, 0) for entry in
entries}` from `_on_instruments_loaded`. -/
def dfromEntries (old : List (String × Int)) (entries : List String) :
    List (String × Int) :=
  entries.foldl (fun acc e => dset acc e (dget old e)) []

/-- Highlight clamping performed by `_refresh_library_options`: reset to 0
on an empty list, otherwise clamp to `len - 1`. -/
def refreshLibrary (s : SessionState) : SessionState :=
  if s.libraryEntries.isEmpty then { s with highlightIndex := 0 }
  else { s with highlightIndex := min s.highlightIndex (s.libraryEntries.length - 1) }

/-- Highlight clamping performed by `_refresh_instrument_options`. -/
def refreshInstruments (s : SessionState) : SessionState :=
  if s.instrumentEntries.isEmpty then { s with instrumentHighlightIndex := 0 }
  else
    { s with
      instrumentHighlightIndex :=
        min s.instrumentHighlightIndex (s.instrumentEntries.length - 1) }

/-- Embedding of `_toggle_library_entry` (src/src/app.py, lines 505-516). -/
def toggleLibraryEntry (s : SessionState) (entry : String)
    (recordHistory : Bool) : SessionState :=
  let wasSelected : Bool := decide (entry ∈ s.selectedEntries)
  let selected :=
    if wasSelected then s.selectedEntries.erase entry
    else insert entry s.selectedEntries
  let hist :=
    if recordHistory then Action.selection entry wasSelected :: s.actionHistory
    else s.actionHistory
  refreshLibrary { s with selectedEntries := selected, actionHistory := hist }

/-- Embedding of `_restore_selection` (src/src/app.py, lines 518-525). -/
def restoreSelection (s : SessionState) (entry : String)
    (previousState : Bool) : SessionState :=
  refreshLibrary
    { s with selectedEntries :=
        if previousState then insert entry s.selectedEntries
        else s.selectedEntries.erase entry }

/-- Embedding of `_adjust_instrument_count` (src/src/app.py, lines
527-546). -/
def adjustInstrumentCount (s : SessionState) (entry : String) (delta : Int)
    (recordHistory : Bool) : SessionState :=
  if delta = 0 then s
  else
    let current := dget s.instrumentCounts entry
    let newValue := max 0 (current + delta)
    if newValue = current then s
    else
      let hist :=
        if recordHistory then
          Action.instrument entry (newValue - current) :: s.actionHistory
        else s.actionHistory
      refreshInstruments
        { s with instrumentCounts := dset s.instrumentCounts entry newValue,
                 actionHistory := hist }

/-- Embedding of `_undo_last_action` (src/src/app.py, lines 548-561). -/
def undoLastAction (s : SessionState) : SessionState :=
  match s.actionHistory with
  | [] => s
  | Action.selection e prev :: rest =>
      restoreSelection { s with actionHistory := rest } e prev
  | Action.instrument e delta :: rest =>
      adjustInstrumentCount { s with actionHistory := rest } e (-delta) false

/-- Embedding of `_clear_all_selections` (src/src/app.py, lines 563-575). -/
def clearAllSelections (s : SessionState) : SessionState :=
  if s.selectedEntries = ∅ ∧
      s.instrumentCounts.any (fun p => decide (0 < p.2)) = false then s
  else
    refreshInstruments (refreshLibrary
      { s with selectedEntries := ∅,
               instrumentCounts := dzero s.instrumentCounts,
               actionHistory := [] })

/-- Embedding of `_on_library_loaded` (src/src/app.py, lines 233-241);
`_refresh_library_options` runs at the end. -/
def onLibraryLoaded (s : SessionState) (contents : List String) : SessionState :=
  refreshLibrary
    { s with libraryEntries := contents, selectedEntries := ∅,
             highlightIndex := 0, actionHistory := [] }

/-- Embedding of the state effect of `_on_library_error` (src/src/app.py,
lines 243-259). -/
def onLibraryError (s : SessionState) : SessionState :=
  { s with libraryEntries := [], selectedEntries := ∅,
           highlightIndex := 0, actionHistory := [] }

/-- Embedding of `_on_instruments_loaded` (src/src/app.py, lines 261-270);
note the counts mapping keeps prior values via `get(entry, 0)`. -/
def onInstrumentsLoaded (s : SessionState) (entries : List String) : SessionState :=
  refreshInstruments
    { s with instrumentEntries := entries,
             instrumentCounts := dfromEntries s.instrumentCounts entries,
             instrumentHighlightIndex := 0, actionHistory := [] }

/-- Embedding of the state effect of `_on_instruments_error`
(src/src/app.py, lines 272-284). -/
def onInstrumentsError (s : SessionState) : SessionState :=
  { s with instrumentEntries := [], instrumentCounts := [],
           instrumentHighlightIndex := 0, actionHistory := [] }

/-- Library branch of `on_option_list_option_selected` (src/src/app.py,
lines 300-307): ignore out-of-range indices, otherwise set the highlight
and toggle the entry at that index. -/
def selectLibraryIndex (s : SessionState) (i : Nat) : SessionState :=
  if h : i < s.libraryEntries.length then
    toggleLibraryEntry { s with highlightIndex := i }
      (s.libraryEntries.get ⟨i, h⟩) true
  else s

/-- Instrument branch of `on_option_list_option_selected` (src/src/app.py,
lines 309-319): ignore out-of-range indices, otherwise adjust by -1 for a
decrement event and +1 otherwise. -/
def selectInstrumentIndex (s : SessionState) (i : Nat)
    (isDecrement : Bool) : SessionState :=
  if h : i < s.instrumentEntries.length then
    adjustInstrumentCount { s with instrumentHighlightIndex := i }
      (s.instrumentEntries.get ⟨i, h⟩) (if isDecrement then -1 else 1) true
  else s

/-- State created by `BandDropboxApp.__init__` (src/src/app.py, lines
49-61). -/
def initialState : SessionState :=
  { libraryEntries := [], selectedEntries := ∅, highlightIndex := 0,
    instrumentEntries := [], instrumentCounts := [],
    instrumentHighlightIndex := 0, actionHistory := [] }

/-- One discrete user-driven or load-driven state mutation, covering every
code path of src/src/app.py that writes session state. -/
inductive UserOp where
  | toggleEntry (entry : String)
  | adjustCount (entry : String) (delta : Int)
  | selectLibrary (index : Nat)
  | selectInstrument (index : Nat) (isDecrement : Bool)
  | undoOp
  | clearOp
  | libraryLoaded (entries : List String)
  | libraryFailed
  | instrumentsLoaded (entries : List String)
  | instrumentsFailed
  | highlightLibrary (index : Nat)
  | highlightInstrument (index : Nat)
deriving DecidableEq

/-- Dispatch of a single operation to the handler embeddings; the two
highlight operations embed `on_option_list_option_highlighted`. -/
def applyOp (s : SessionState) : UserOp → SessionState
  | UserOp.toggleEntry e => toggleLibraryEntry s e true
  | UserOp.adjustCount e d => adjustInstrumentCount s e d true
  | UserOp.selectLibrary i => selectLibraryIndex s i
  | UserOp.selectInstrument i dec => selectInstrumentIndex s i dec
  | UserOp.undoOp => undoLastAction s
  | UserOp.clearOp => clearAllSelections s
  | UserOp.libraryLoaded es => onLibraryLoaded s es
  | UserOp.libraryFailed => onLibraryError s
  | UserOp.instrumentsLoaded es => onInstrumentsLoaded s es
  | UserOp.instrumentsFailed => onInstrumentsError s
  | UserOp.highlightLibrary i => { s with highlightIndex := i }
  | UserOp.highlightInstrument i => { s with instrumentHighlightIndex := i }

/-- Sequential execution of a list of operations. -/
def applyOps (s : SessionState) (ops : List UserOp) : SessionState :=
  ops.foldl applyOp s

/-! Helper lemmas about the dictionary model and the refresh helpers. -/

@[simp] lemma selectedEntries_refreshLibrary (s : SessionState) :
    (refreshLibrary s).selectedEntries = s.selectedEntries := by
  unfold refreshLibrary; split <;> rfl

@[simp] lemma actionHistory_refreshLibrary (s : SessionState) :
    (refreshLibrary s).actionHistory = s.actionHistory := by
  unfold refreshLibrary; split <;> rfl

@[simp] lemma instrumentCounts_refreshLibrary (s : SessionState) :
    (refreshLibrary s).instrumentCounts = s.instrumentCounts := by
  unfold refreshLibrary; split <;> rfl

@[simp] lemma libraryEntries_refreshLibrary (s : SessionState) :
    (refreshLibrary s).libraryEntries = s.libraryEntries := by
  unfold refreshLibrary; split <;> rfl

@[simp] lemma instrumentEntries_refreshLibrary (s : SessionState) :
    (refreshLibrary s).instrumentEntries = s.instrumentEntries := by
  unfold refreshLibrary; split <;> rfl

@[simp] lemma instrumentHighlightIndex_refreshLibrary (s : SessionState) :
    (refreshLibrary s).instrumentHighlightIndex = s.instrumentHighlightIndex := by
  unfold refreshLibrary; split <;> rfl

@[simp] lemma selectedEntries_refreshInstruments (s : SessionState) :
    (refreshInstruments s).selectedEntries = s.selectedEntries := by
  unfold refreshInstruments; split <;> rfl

@[simp] lemma actionHistory_refreshInstruments (s : SessionState) :
    (refreshInstruments s).actionHistory = s.actionHistory := by
  unfold refreshInstruments; split <;> rfl

@[simp] lemma instrumentCounts_refreshInstruments (s : SessionState) :
    (refreshInstruments s).instrumentCounts = s.instrumentCounts := by
  unfold refreshInstruments; split <;> rfl

@[simp] lemma libraryEntries_refreshInstruments (s : SessionState) :
    (refreshInstruments s).libraryEntries = s.libraryEntries := by
  unfold refreshInstruments; split <;> rfl

@[simp] lemma instrumentEntries_refreshInstruments (s : SessionState) :
    (refreshInstruments s).instrumentEntries = s.instrumentEntries := by
  unfold refreshInstruments; split <;> rfl

@[simp] lemma highlightIndex_refreshInstruments (s : SessionState) :
    (refreshInstruments s).highlightIndex = s.highlightIndex := by
  unfold refreshInstruments; split <;> rfl

lemma dget_dset (m : List (String × Int)) (k : String) (v : Int) (q : String) :
    dget (dset m k v) q = if q = k then v else dget m q := by
  induction m with
  | nil =>
      rcases eq_or_ne q k with h | h
      · subst h; simp [dset, dget]
      · simp [dset, dget, h, Ne.symm h]
  | cons p rest ih =>
      obtain ⟨a, b⟩ := p
      rcases eq_or_ne a k with hak | hak
      · subst hak
        rcases eq_or_ne q a with hq | hq
        · subst hq; simp [dset, dget]
        · simp [dset, dget, hq, Ne.symm hq]
      · rcases eq_or_ne a q with haq | haq
        · subst haq
          simp [dset, dget, hak, Ne.symm hak]
        · simp [dset, dget, hak, haq, ih]

lemma dget_dzero (m : List (String × Int)) (q : String) :
    dget (dzero m) q = 0 := by
  induction m with
  | nil => rfl
  | cons p rest ih =>
      obtain ⟨a, b⟩ := p
      simp only [dzero, List.map] at ih ⊢
      rw [dget]
      split
      · rfl
      · exact ih

lemma dget_foldl_fromEntries (old : List (String × Int)) :
    ∀ (es : List String) (acc : List (String × Int)) (q : String),
      dget (es.foldl (fun acc e => dset acc e (dget old e)) acc) q =
        if q ∈ es then dget old q else dget acc q := by
  intro es
  induction es with
  | nil => intro acc q; simp
  | cons e rest ih =>
      intro acc q
      by_cases hq : q ∈ rest
      · simp [List.foldl, ih, hq]
      · by_cases hqe : q = e
        · subst hqe
          simp [List.foldl, ih, hq, dget_dset]
        · simp [List.foldl, ih, hq, hqe, dget_dset]

lemma dget_dfromEntries (old : List (String × Int)) (es : List String)
    (q : String) :
    dget (dfromEntries old es) q = if q ∈ es then dget old q else 0 := by
  unfold dfromEntries
  rw [dget_foldl_fromEntries]
  rfl

lemma undoLastAction_eq (s : SessionState) :
    undoLastAction s =
      match s.actionHistory with
      | [] => s
      | Action.selection e prev :: rest =>
          restoreSelection { s with actionHistory := rest } e prev
      | Action.instrument e delta :: rest =>
          adjustInstrumentCount { s with actionHistory := rest } e (-delta) false :=
  rfl

lemma undo_of_history_selection (s : SessionState) (e : String) (p : Bool)
    (rest : List Action) (h : s.actionHistory = Action.selection e p :: rest) :
    undoLastAction s = restoreSelection { s with actionHistory := rest } e p := by
  rw [undoLastAction_eq, h]

lemma undo_of_history_instrument (s : SessionState) (e : String) (d : Int)
    (rest : List Action) (h : s.actionHistory = Action.instrument e d :: rest) :
    undoLastAction s =
      adjustInstrumentCount { s with actionHistory := rest } e (-d) false := by
  rw [undoLastAction_eq, h]

/-- Sample state used by the witness theorems: one library entry, one
instrument with a count of 1, empty history. -/
def stateA : SessionState :=
  { libraryEntries := ["a"], selectedEntries := ∅, highlightIndex := 0,
    instrumentEntries := ["fl"], instrumentCounts := [("fl", 1)],
    instrumentHighlightIndex := 0, actionHistory := [] }

/-- Claim C1: undoing immediately after a selection toggle restores the
selected set, pops exactly the one record the toggle pushed and pushes
nothing; undoing after a tally adjustment that actually pushed a record
(started from a non-negative count, as all reachable counts are) restores
the tally mapping and the history; and undo on an empty history is a
state-preserving no-op. -/
theorem undo_restores_last_action (s : SessionState) (e : String) (d : Int) :
    ((undoLastAction (toggleLibraryEntry s e true)).selectedEntries
        = s.selectedEntries ∧
     (undoLastAction (toggleLibraryEntry s e true)).actionHistory
        = s.actionHistory ∧
     (undoLastAction (toggleLibraryEntry s e true)).instrumentCounts
        = s.instrumentCounts) ∧
    (0 ≤ dget s.instrumentCounts e →
      max 0 (dget s.instrumentCounts e + d) ≠ dget s.instrumentCounts e →
      ((∀ k, dget (undoLastAction (adjustInstrumentCount s e d true)).instrumentCounts k
            = dget s.instrumentCounts k) ∧
       (undoLastAction (adjustInstrumentCount s e d true)).actionHistory
            = s.actionHistory ∧
       (undoLastAction (adjustInstrumentCount s e d true)).selectedEntries
            = s.selectedEntries)) ∧
    (s.actionHistory = [] → undoLastAction s = s) := by
  refine ⟨?_, ?_, ?_⟩
  · by_cases hm : e ∈ s.selectedEntries
    · have h1 : toggleLibraryEntry s e true =
          refreshLibrary
            { s with
              selectedEntries := s.selectedEntries.erase e,
              actionHistory := Action.selection e true :: s.actionHistory } := by
        simp [toggleLibraryEntry, hm]
      have h2 : undoLastAction (toggleLibraryEntry s e true) =
          restoreSelection
            { toggleLibraryEntry s e true with actionHistory := s.actionHistory }
            e true := by
        apply undo_of_history_selection
        rw [h1]; simp
      rw [h2, h1]
      simp [restoreSelection, Finset.insert_erase hm]
    · have h1 : toggleLibraryEntry s e true =
          refreshLibrary
            { s with
              selectedEntries := insert e s.selectedEntries,
              actionHistory := Action.selection e false :: s.actionHistory } := by
        simp [toggleLibraryEntry, hm]
      have h2 : undoLastAction (toggleLibraryEntry s e true) =
          restoreSelection
            { toggleLibraryEntry s e true with actionHistory := s.actionHistory }
            e false := by
        apply undo_of_history_selection
        rw [h1]; simp
      rw [h2, h1]
      simp [restoreSelection, Finset.erase_insert hm]
  · intro hnn hne
    have hd : ¬ d = 0 := by
      intro h0
      exact hne (by rw [h0, add_zero]; exact max_eq_right hnn)
    have h1 : adjustInstrumentCount s e d true =
        refreshInstruments
          { s with
            instrumentCounts :=
              dset s.instrumentCounts e (max 0 (dget s.instrumentCounts e + d)),
            actionHistory :=
              Action.instrument e
                (max 0 (dget s.instrumentCounts e + d) - dget s.instrumentCounts e)
                :: s.actionHistory } := by
      simp [adjustInstrumentCount, hd, hne]
    have h2 : undoLastAction (adjustInstrumentCount s e d true) =
        adjustInstrumentCount
          { adjustInstrumentCount s e d true with actionHistory := s.actionHistory }
          e (-(max 0 (dget s.instrumentCounts e + d) - dget s.instrumentCounts e))
          false := by
      apply undo_of_history_instrument
      rw [h1]; simp
    have hcur : dget (adjustInstrumentCount s e d true).instrumentCounts e =
        max 0 (dget s.instrumentCounts e + d) := by
      rw [h1]; simp [dget_dset]
    have hd2 : ¬ -(max 0 (dget s.instrumentCounts e + d)
        - dget s.instrumentCounts e) = 0 := by
      intro h0; exact hne (by omega)
    have hback : max 0 (max 0 (dget s.instrumentCounts e + d) +
        -(max 0 (dget s.instrumentCounts e + d) - dget s.instrumentCounts e))
        = dget s.instrumentCounts e := by
      have : max 0 (dget s.instrumentCounts e + d) +
          -(max 0 (dget s.instrumentCounts e + d) - dget s.instrumentCounts e)
          = dget s.instrumentCounts e := by omega
      rw [this]; exact max_eq_right hnn
    have h3 : adjustInstrumentCount
          { adjustInstrumentCount s e d true with actionHistory := s.actionHistory }
          e (-(max 0 (dget s.instrumentCounts e + d) - dget s.instrumentCounts e))
          false =
        refreshInstruments
          { adjustInstrumentCount s e d true with
            actionHistory := s.actionHistory,
            instrumentCounts :=
              dset (adjustInstrumentCount s e d true).instrumentCounts e
                (dget s.instrumentCounts e) } := by
      rw [adjustInstrumentCount]
      rw [if_neg hd2]
      simp only [hcur, hback]
      rw [if_neg (Ne.symm (fun hh => hne hh))]
      simp
    refine ⟨?_, ?_, ?_⟩
    · intro k
      rw [h2, h3]
      simp only [instrumentCounts_refreshInstruments]
      rw [dget_dset]
      rcases eq_or_ne k e with hk | hk
      · subst hk; simp
      · rw [if_neg hk, h1]
        simp [dget_dset, hk]
    · rw [h2, h3]; simp
    · rw [h2, h3]
      simp only [selectedEntries_refreshInstruments]
      rw [h1]; simp
  · intro h
    rw [undoLastAction_eq, h]

/-- Witness for claim C1, applying the round-trip law at a concrete state
and adjustment, and the empty-history no-op at the same state. -/
theorem undo_restores_last_action_witness :
    ((undoLastAction (adjustInstrumentCount stateA "fl" 2 true)).actionHistory
      = stateA.actionHistory) ∧
    undoLastAction stateA = stateA :=
  ⟨((undo_restores_last_action stateA "fl" 2).2.1 (by decide) (by decide)).2.1,
   (undo_restores_last_action stateA "fl" 2).2.2 rfl⟩

/-- Claim C2: `adjust_tally` computes `new = max 0 (current + delta)` from
the current count (0 when absent); when `new = current` it is a complete
no-op pushing nothing, otherwise the mapping is updated to `new` and an
`InstrumentAction` carrying the applied, never-zero delta `new - current`
is pushed on the history. -/
theorem adjust_tally_characterisation (s : SessionState) (e : String)
    (d : Int) (h : 0 ≤ dget s.instrumentCounts e) :
    (max 0 (dget s.instrumentCounts e + d) = dget s.instrumentCounts e →
      adjustInstrumentCount s e d true = s) ∧
    (max 0 (dget s.instrumentCounts e + d) ≠ dget s.instrumentCounts e →
      (adjustInstrumentCount s e d true).instrumentCounts
          = dset s.instrumentCounts e (max 0 (dget s.instrumentCounts e + d)) ∧
      (adjustInstrumentCount s e d true).actionHistory
          = Action.instrument e (max 0 (dget s.instrumentCounts e + d)
              - dget s.instrumentCounts e) :: s.actionHistory ∧
      max 0 (dget s.instrumentCounts e + d) - dget s.instrumentCounts e ≠ 0) := by
  constructor
  · intro heq
    by_cases hd : d = 0
    · subst hd; simp [adjustInstrumentCount]
    · simp [adjustInstrumentCount, hd, heq]
  · intro hne
    have hd : ¬ d = 0 := by
      intro h0
      exact hne (by rw [h0, add_zero]; exact max_eq_right h)
    refine ⟨?_, ?_, ?_⟩
    · simp [adjustInstrumentCount, hd, hne]
    · simp [adjustInstrumentCount, hd, hne]
    · intro h0; exact hne (by omega)

/-- Witness for claim C2: a delta of 0 from a non-negative count is a
no-op, and a delta of 2 pushes the applied-delta record. -/
theorem adjust_tally_characterisation_witness :
    adjustInstrumentCount stateA "fl" 0 true = stateA ∧
    (adjustInstrumentCount stateA "fl" 2 true).actionHistory =
      Action.instrument "fl"
        (max 0 (dget stateA.instrumentCounts "fl" + 2)
          - dget stateA.instrumentCounts "fl") :: stateA.actionHistory :=
  ⟨(adjust_tally_characterisation stateA "fl" 0 (by decide)).1 (by decide),
   ((adjust_tally_characterisation stateA "fl" 2 (by decide)).2 (by decide)).2.1⟩

/-- Tallies in the instrument mapping are non-negative (absence reads as
0). -/
def TalliesNonneg (s : SessionState) : Prop :=
  ∀ k, 0 ≤ dget s.instrumentCounts k

@[simp] lemma instrumentCounts_toggle (s : SessionState) (e : String) (r : Bool) :
    (toggleLibraryEntry s e r).instrumentCounts = s.instrumentCounts := by
  simp [toggleLibraryEntry]

@[simp] lemma instrumentCounts_restore (s : SessionState) (e : String) (p : Bool) :
    (restoreSelection s e p).instrumentCounts = s.instrumentCounts := by
  simp [restoreSelection]

lemma adjust_eq (s : SessionState) (e : String) (d : Int) (r : Bool) :
    adjustInstrumentCount s e d r =
      if d = 0 ∨ max 0 (dget s.instrumentCounts e + d) = dget s.instrumentCounts e
      then s
      else
        refreshInstruments
          { s with
            instrumentCounts :=
              dset s.instrumentCounts e (max 0 (dget s.instrumentCounts e + d)),
            actionHistory :=
              if r then
                Action.instrument e
                  (max 0 (dget s.instrumentCounts e + d) - dget s.instrumentCounts e)
                  :: s.actionHistory
              else s.actionHistory } := by
  by_cases hd : d = 0
  · simp [adjustInstrumentCount, hd]
  · by_cases hnc :
        max 0 (dget s.instrumentCounts e + d) = dget s.instrumentCounts e
    · simp [adjustInstrumentCount, hd, hnc]
    · simp [adjustInstrumentCount, hd, hnc]

lemma nonneg_adjust (s : SessionState) (e : String) (d : Int) (r : Bool)
    (h : TalliesNonneg s) : TalliesNonneg (adjustInstrumentCount s e d r) := by
  intro k
  rw [adjust_eq]
  split
  · exact h k
  · simp only [instrumentCounts_refreshInstruments]
    rw [dget_dset]
    split
    · exact le_max_left 0 _
    · exact h k

lemma nonneg_undo (s : SessionState) (h : TalliesNonneg s) :
    TalliesNonneg (undoLastAction s) := by
  rcases hh : s.actionHistory with _ | ⟨a, rest⟩
  · rw [undoLastAction_eq, hh]; exact h
  · cases a with
    | selection e p =>
        rw [undo_of_history_selection s e p rest hh]
        intro k
        simp only [instrumentCounts_restore]
        exact h k
    | instrument e d =>
        rw [undo_of_history_instrument s e d rest hh]
        exact nonneg_adjust _ _ _ _ (fun k => h k)

lemma nonneg_clear (s : SessionState) (h : TalliesNonneg s) :
    TalliesNonneg (clearAllSelections s) := by
  intro k
  rw [clearAllSelections]
  split
  · exact h k
  · simp only [instrumentCounts_refreshInstruments, instrumentCounts_refreshLibrary]
    rw [dget_dzero]

lemma nonneg_instrumentsLoaded (s : SessionState) (es : List String)
    (h : TalliesNonneg s) : TalliesNonneg (onInstrumentsLoaded s es) := by
  intro k
  rw [onInstrumentsLoaded]
  simp only [instrumentCounts_refreshInstruments]
  rw [dget_dfromEntries]
  split
  · exact h k
  · exact le_refl 0

lemma nonneg_applyOp (s : SessionState) (op : UserOp) (h : TalliesNonneg s) :
    TalliesNonneg (applyOp s op) := by
  cases op with
  | toggleEntry e => intro k; simp only [applyOp, instrumentCounts_toggle]; exact h k
  | adjustCount e d => exact nonneg_adjust _ _ _ _ h
  | selectLibrary i =>
      rw [applyOp, selectLibraryIndex]
      split
      · intro k; simp only [instrumentCounts_toggle]; exact h k
      · exact h
  | selectInstrument i dec =>
      rw [applyOp, selectInstrumentIndex]
      split
      · exact nonneg_adjust _ _ _ _ (fun k => h k)
      · exact h
  | undoOp => exact nonneg_undo _ h
  | clearOp => exact nonneg_clear _ h
  | libraryLoaded es =>
      intro k
      rw [applyOp, onLibraryLoaded]
      simp only [instrumentCounts_refreshLibrary]
      exact h k
  | libraryFailed => exact h
  | instrumentsLoaded es => exact nonneg_instrumentsLoaded _ _ h
  | instrumentsFailed => intro k; rw [applyOp]; simp [onInstrumentsError, dget]
  | highlightLibrary i => exact h
  | highlightInstrument i => exact h

/-- Claim C3: starting from the constructor state, tallies stay
non-negative under every sequence of operations (adjustments interleaved
with any other handler), and a decrement of an entry whose count is 0 is a
complete no-op that pushes no history record. -/
theorem tallies_nonneg_invariant :
    TalliesNonneg initialState ∧
    (∀ (s : SessionState) (ops : List UserOp),
      TalliesNonneg s → TalliesNonneg (applyOps s ops)) ∧
    (∀ (s : SessionState) (e : String),
      dget s.instrumentCounts e = 0 → adjustInstrumentCount s e (-1) true = s) := by
  refine ⟨?_, ?_, ?_⟩
  · intro k; rw [initialState]; simp [dget]
  · intro s ops
    induction ops generalizing s with
    | nil => intro h; exact h
    | cons op rest ih =>
        intro h
        exact ih (applyOp s op) (nonneg_applyOp s op h)
  · intro s e h0
    rw [adjustInstrumentCount]
    rw [if_neg (by norm_num : ¬(-1 : Int) = 0)]
    simp only [h0]
    norm_num

/-- Witness for claim C3 at a concrete state, sequence and entry. -/
theorem tallies_nonneg_invariant_witness :
    0 ≤ dget (applyOps stateA [UserOp.adjustCount "fl" 3]).instrumentCounts "fl" ∧
    adjustInstrumentCount initialState "x" (-1) true = initialState :=
  ⟨tallies_nonneg_invariant.2.1 stateA [UserOp.adjustCount "fl" 3]
      (fun k => by rw [stateA]; simp only [dget]; split <;> norm_num) "fl",
   tallies_nonneg_invariant.2.2 initialState "x" rfl⟩

/-- State reached by loading a one-entry library and toggling that entry
once: `{"a"}` selected, one history record. -/
def stateB : SessionState :=
  applyOps initialState [UserOp.libraryLoaded ["a"], UserOp.selectLibrary 0]

/-- State reached by loading a one-entry library and toggling that entry
twice: empty selection, all tallies 0, but two history records. -/
def stateC4 : SessionState :=
  applyOps initialState
    [UserOp.libraryLoaded ["a"], UserOp.selectLibrary 0, UserOp.selectLibrary 0]

/-- Claim C4 counterexample: in a reachable state with empty selection and
zero tallies but a non-empty history, `clear_all` early-returns without
clearing the history, so a following `undo` mutates the state (it
re-selects the previously toggled entry). -/
theorem clear_then_undo_counterexample :
    undoLastAction (clearAllSelections stateC4) ≠ clearAllSelections stateC4 := by
  decide

/-- Claim C4 (amended): whenever `clear_all` actually clears — that is,
when something is selected or some tally is positive, the complement of its
early-return guard — it empties the history, so `clear_all` followed by
`undo` leaves the state unchanged and resurrects nothing. -/
theorem clear_then_undo_after_effective_clear (s : SessionState)
    (h : ¬(s.selectedEntries = ∅ ∧
        s.instrumentCounts.any (fun p => decide (0 < p.2)) = false)) :
    undoLastAction (clearAllSelections s) = clearAllSelections s ∧
    (clearAllSelections s).actionHistory = [] := by
  have hh : (clearAllSelections s).actionHistory = [] := by
    rw [clearAllSelections, if_neg h]; simp
  refine ⟨?_, hh⟩
  rw [undoLastAction_eq, hh]

/-- Witness for the amended claim C4 at a concrete state with a non-empty
selection. -/
theorem clear_then_undo_after_effective_clear_witness :
    undoLastAction (clearAllSelections stateB) = clearAllSelections stateB :=
  (clear_then_undo_after_effective_clear stateB (by decide)).1

/-- Claim C5: `clear_all` is a complete no-op when nothing is selected and
every stored tally is 0; otherwise it empties the selected set, resets
every tally in the mapping to 0 and clears the history in the one call. -/
theorem clear_all_characterisation (s : SessionState) :
    (s.selectedEntries = ∅ → (∀ p ∈ s.instrumentCounts, p.2 = 0) →
      clearAllSelections s = s) ∧
    (¬(s.selectedEntries = ∅ ∧
        s.instrumentCounts.any (fun p => decide (0 < p.2)) = false) →
      (clearAllSelections s).selectedEntries = ∅ ∧
      (∀ k, dget (clearAllSelections s).instrumentCounts k = 0) ∧
      (clearAllSelections s).actionHistory = []) := by
  constructor
  · intro h1 h2
    rw [clearAllSelections, if_pos]
    refine ⟨h1, ?_⟩
    simp only [List.any_eq_false, decide_eq_true_eq]
    intro p hp
    rw [h2 p hp]
    norm_num
  · intro h
    rw [clearAllSelections, if_neg h]
    refine ⟨by simp, ?_, by simp⟩
    intro k
    simp only [instrumentCounts_refreshInstruments, instrumentCounts_refreshLibrary]
    exact dget_dzero _ _

/-- Witness for claim C5: the no-op branch at the empty initial state and
the clearing branch at a state with a selection. -/
theorem clear_all_characterisation_witness :
    clearAllSelections initialState = initialState ∧
    (clearAllSelections stateB).actionHistory = [] :=
  ⟨(clear_all_characterisation initialState).1 rfl
      (by intro p hp; exact absurd hp (List.not_mem_nil p)),
   ((clear_all_characterisation stateB).2 (by decide)).2.2⟩

/-- Claim C8 counterexample: `_toggle_library_entry` itself never checks
whether its argument is a known library identity — toggling the unknown
string "zzz" against a library holding only "a" selects it and pushes a
history record, so the identity-keyed operation is not a no-op. -/
theorem unknown_entry_toggle_counterexample :
    ("zzz" ∉ (onLibraryLoaded initialState ["a"]).libraryEntries) ∧
    (toggleLibraryEntry (onLibraryLoaded initialState ["a"]) "zzz" true).actionHistory
      ≠ (onLibraryLoaded initialState ["a"]).actionHistory ∧
    (toggleLibraryEntry (onLibraryLoaded initialState ["a"]) "zzz" true).selectedEntries
      ≠ (onLibraryLoaded initialState ["a"]).selectedEntries := by
  decide

/-- Claim C8 (amended): unknown identities are rejected at the dispatch
layer, which is index-based — a selection or adjustment event whose index
is out of range for the owning panel's entry list is silently ignored,
changing no state and pushing nothing; the entry-keyed helpers themselves
do not validate identities. -/
theorem out_of_range_interactions_noop (s : SessionState) (i : Nat)
    (dec : Bool) :
    (s.libraryEntries.length ≤ i → selectLibraryIndex s i = s) ∧
    (s.instrumentEntries.length ≤ i → selectInstrumentIndex s i dec = s) := by
  constructor
  · intro h
    rw [selectLibraryIndex, dif_neg (by omega)]
  · intro h
    rw [selectInstrumentIndex, dif_neg (by omega)]

/-- Witness for the amended claim C8 on the empty initial lists. -/
theorem out_of_range_interactions_noop_witness :
    selectLibraryIndex initialState 0 = initialState ∧
    selectInstrumentIndex initialState 0 true = initialState :=
  ⟨(out_of_range_interactions_noop initialState 0 true).1 (by decide),
   (out_of_range_interactions_noop initialState 0 true).2 (by decide)⟩

/-- State reached by loading one instrument and incrementing it once: the
"fl" tally is 1. -/
def stateC9 : SessionState :=
  applyOps initialState
    [UserOp.instrumentsLoaded ["fl"], UserOp.selectInstrument 0 false]

/-- Claim C9 counterexample: reloading the instruments list with the same
entry keeps the prior tally (`counts.get(entry, 0)` carries it over), so a
fresh load does not reset every tally to zero. -/
theorem reload_preserves_tallies_counterexample :
    dget (onInstrumentsLoaded stateC9 ["fl"]).instrumentCounts "fl" = 1 ∧
    (1 : Int) ≠ 0 := by
  decide

/-- Claim C9 (amended): a library reload empties the selected set, clears
the undo log and resets the highlight; an instruments reload clears the
undo log, resets the highlight and re-keys the tally mapping to the new
entries — dropping entries no longer present and starting new entries at
0 — but preserves the existing count of every surviving entry. -/
theorem reload_reset_characterisation (s : SessionState) (es : List String) :
    ((onLibraryLoaded s es).libraryEntries = es ∧
     (onLibraryLoaded s es).selectedEntries = ∅ ∧
     (onLibraryLoaded s es).actionHistory = [] ∧
     (onLibraryLoaded s es).highlightIndex = 0) ∧
    ((onInstrumentsLoaded s es).instrumentEntries = es ∧
     (onInstrumentsLoaded s es).actionHistory = [] ∧
     (onInstrumentsLoaded s es).instrumentHighlightIndex = 0 ∧
     (∀ k, dget (onInstrumentsLoaded s es).instrumentCounts k =
        if k ∈ es then dget s.instrumentCounts k else 0)) := by
  refine ⟨⟨?_, ?_, ?_, ?_⟩, ?_, ?_, ?_, ?_⟩
  · simp [onLibraryLoaded]
  · simp [onLibraryLoaded]
  · simp [onLibraryLoaded]
  · rw [onLibraryLoaded, refreshLibrary]
    split <;> simp
  · simp [onInstrumentsLoaded]
  · simp [onInstrumentsLoaded]
  · rw [onInstrumentsLoaded, refreshInstruments]
    split <;> simp
  · intro k
    simp only [onInstrumentsLoaded, instrumentCounts_refreshInstruments]
    exact dget_dfromEntries _ _ _

/-! Entry processing (src/src/app.py `_process_instrument_entries`,
`_strip_type_indicator`, `_instrument_exclusions`; src/src/util.py
`strip_suffix`, `contains_any_substring`).  Strings are processed through
their character lists. -/

/-- Scan for the first occurrence of the two-character separator "] " and
return the characters after it, as Python `entry.split("] ", 1)[1]`. -/
def afterBracketSpace : List Char → Option (List Char)
  | [] => none
  | c :: rest =>
      if c = ']' ∧ rest.head? = some ' ' then some rest.tail
      else afterBracketSpace rest

/-- Embedding of `_strip_type_indicator`: when the entry starts with `[`
and contains "] ", keep the substring after the first "] ". -/
def stripTypeIndicator (s : String) : String :=
  if s.data.head? = some '[' then
    match afterBracketSpace s.data with
    | some rest => String.mk rest
    | none => s
  else s

/-- Embedding of `strip_suffix` (src/src/util.py): falsy suffixes (None or
empty) leave the entry unchanged; otherwise drop the suffix when the entry
ends with it, by exact case-sensitive match. -/
def stripSuffixStr (entry : String) (suffix : Option String) : String :=
  match suffix with
  | none => entry
  | some suf =>
      if suf.data.isEmpty then entry
      else if suf.data.isSuffixOf entry.data then
        String.mk (entry.data.take (entry.data.length - suf.data.length))
      else entry

/-- Literal substring containment, Python `sub in s`. -/
def containsSub (sub : List Char) : List Char → Bool
  | [] => sub.isEmpty
  | c :: rest => sub.isPrefixOf (c :: rest) || containsSub sub rest

/-- Embedding of `contains_any_substring` (src/src/util.py): true when any
non-empty substring occurs in the entry. -/
def containsAnySubstring (entry : String) (subs : List String) : Bool :=
  subs.any (fun sub => (!sub.data.isEmpty) && containsSub sub.data entry.data)

/-- Python `raw.split(",")` at character level. -/
def splitOnComma (l : List Char) : List (List Char) :=
  l.foldr
    (fun c acc =>
      if c = ',' then [] :: acc
      else
        match acc with
        | h :: t => (c :: h) :: t
        | [] => [[c]])
    [[]]

/-- Whitespace recognised by the trim below. -/
def isSpaceChar (c : Char) : Bool :=
  decide (c = ' ' ∨ c = '\t' ∨ c = '\n' ∨ c = '\r')

/-- Python `part.strip()` at character level. -/
def trimChars (l : List Char) : List Char :=
  ((l.dropWhile isSpaceChar).reverse.dropWhile isSpaceChar).reverse

/-- Embedding of `_instrument_exclusions`: split the raw comma-separated
configuration value, strip each part, drop empty parts. -/
def parseExclusions (raw : Option String) : List String :=
  (((splitOnComma (raw.getD "").data).map
      (fun p => String.mk (trimChars p))).filter (fun p => !p.data.isEmpty))

/-- Case-insensitive lexicographic comparison on character lists. -/
def charListLe : List Char → List Char → Bool
  | [], _ => true
  | _ :: _, [] => false
  | a :: as, b :: bs => if a = b then charListLe as bs else decide (a < b)

/-- Python `sorted(..., key=str.lower)` comparison: lexicographic order of
the lowercased strings. -/
def lowerLe (a b : String) : Bool :=
  charListLe (a.data.map Char.toLower) (b.data.map Char.toLower)

/-- The comparison as a decidable relation, for the sort. -/
def lowerLeP (a b : String) : Prop := lowerLe a b = true

instance : DecidableRel lowerLeP :=
  fun a b => inferInstanceAs (Decidable (lowerLe a b = true))

lemma charListLe_total (a b : List Char) :
    charListLe a b = true ∨ charListLe b a = true := by
  induction a generalizing b with
  | nil => left; rfl
  | cons x xs ih =>
      cases b with
      | nil => right; rfl
      | cons y ys =>
          rcases eq_or_ne x y with hxy | hxy
          · subst hxy
            rcases ih ys with h | h
            · left; simp [charListLe, h]
            · right; simp [charListLe, h]
          · rcases lt_or_gt_of_ne hxy with h | h
            · left; simp [charListLe, hxy, h]
            · right; simp [charListLe, Ne.symm hxy, h]

lemma charListLe_trans (a b c : List Char) (hab : charListLe a b = true)
    (hbc : charListLe b c = true) : charListLe a c = true := by
  induction a generalizing b c with
  | nil => rfl
  | cons x xs ih =>
      cases b with
      | nil => simp [charListLe] at hab
      | cons y ys =>
          cases c with
          | nil => simp [charListLe] at hbc
          | cons z zs =>
              rcases eq_or_ne x y with hxy | hxy
              · subst hxy
                rcases eq_or_ne x z with hxz | hxz
                · subst hxz
                  simp only [charListLe, if_pos rfl] at hab hbc ⊢
                  exact ih ys zs hab hbc
                · simp only [charListLe, if_neg hxz] at hbc ⊢
                  exact hbc
              · have hxyl : x < y := by
                  have := hab
                  simp only [charListLe, if_neg hxy, decide_eq_true_eq] at this
                  exact this
                rcases eq_or_ne y z with hyz | hyz
                · subst hyz
                  simp only [charListLe, if_neg hxy, decide_eq_true_eq]
                  exact hxyl
                · have hyzl : y < z := by
                    have := hbc
                    simp only [charListLe, if_neg hyz, decide_eq_true_eq] at this
                    exact this
                  have hxz : x < z := lt_trans hxyl hyzl
                  simp only [charListLe, if_neg (ne_of_lt hxz), decide_eq_true_eq]
                  exact hxz

instance : IsTotal String lowerLeP :=
  ⟨fun _ _ => charListLe_total _ _⟩

instance : IsTrans String lowerLeP :=
  ⟨fun _ _ _ hab hbc => charListLe_trans _ _ _ hab hbc⟩

/-- Embedding of `_process_instrument_entries`: per entry strip the type
indicator, strip the configured suffix, drop entries matching a configured
exclusion, then sort case-insensitively (a stable sort, like Python's). -/
def processInstrumentEntries (entries : List String) (suffix : Option String)
    (exclusions : List String) : List String :=
  List.insertionSort lowerLeP
    ((entries.map (fun e => stripSuffixStr (stripTypeIndicator e) suffix)).filter
      (fun d => !((!exclusions.isEmpty) && containsAnySubstring d exclusions)))

/-- Step 1 as worded by the specification: strip a leading bracketed
type-indicator if the name starts with `[` and contains "] ", keeping the
substring after the first "] ". -/
def specStripIndicator (name : String) : String :=
  if name.data.head? = some '[' ∧ containsSub [']', ' '] name.data = true then
    match afterBracketSpace name.data with
    | some rest => String.mk rest
    | none => name
  else name

/-- Step 2 as worded by the specification: strip the configured suffix if
the name ends with it, by exact case-sensitive literal match. -/
def specStripSuffix (name : String) (suffix : Option String) : String :=
  match suffix with
  | none => name
  | some suf =>
      if suf.data.isSuffixOf name.data then
        String.mk (name.data.take (name.data.length - suf.data.length))
      else name

/-- The full pipeline as worded by the specification: steps 1 and 2 per
entry, drop entries containing any non-empty exclusion substring, sort the
survivors case-insensitively. -/
def processSpecification (entries : List String) (suffix : Option String)
    (exclusions : List String) : List String :=
  List.insertionSort lowerLeP
    ((entries.map (fun e => specStripSuffix (specStripIndicator e) suffix)).filter
      (fun d => !(exclusions.any
          (fun x => decide (x.data ≠ []) && containsSub x.data d.data))))

lemma sep_isPrefixOf_iff (c : Char) (rest : List Char) :
    [']', ' '].isPrefixOf (c :: rest) = true ↔
      (c = ']' ∧ rest.head? = some ' ') := by
  cases rest with
  | nil => simp [List.isPrefixOf]
  | cons r rs =>
      simp only [List.isPrefixOf, List.head?, Option.some.injEq, Bool.and_eq_true,
        beq_iff_eq, Bool.and_true]
      constructor
      · rintro ⟨h1, h2⟩; exact ⟨h1.symm, h2.symm⟩
      · rintro ⟨h1, h2⟩; exact ⟨h1.symm, h2.symm⟩

lemma containsSub_sep_iff (l : List Char) :
    containsSub [']', ' '] l = true ↔ afterBracketSpace l ≠ none := by
  induction l with
  | nil => simp [containsSub, afterBracketSpace]
  | cons c rest ih =>
      by_cases h : c = ']' ∧ rest.head? = some ' '
      · rw [containsSub, afterBracketSpace, if_pos h]
        constructor
        · intro _; simp
        · intro _
          rw [Bool.or_eq_true]
          left
          exact (sep_isPrefixOf_iff c rest).2 h
      · rw [containsSub, afterBracketSpace, if_neg h]
        rw [Bool.or_eq_true]
        constructor
        · intro hh
          rcases hh with hh | hh
          · exact absurd ((sep_isPrefixOf_iff c rest).1 hh) h
          · exact ih.1 hh
        · intro hh
          right
          exact ih.2 hh

lemma specStripIndicator_eq (name : String) :
    specStripIndicator name = stripTypeIndicator name := by
  rw [specStripIndicator, stripTypeIndicator]
  by_cases h1 : name.data.head? = some '['
  · by_cases h2 : containsSub [']', ' '] name.data = true
    · rw [if_pos ⟨h1, h2⟩, if_pos h1]
    · rw [if_neg (fun hh => h2 hh.2), if_pos h1]
      have hnone : afterBracketSpace name.data = none := by
        rcases h : afterBracketSpace name.data with _ | r
        · rfl
        · exact absurd ((containsSub_sep_iff name.data).2 (by rw [h]; simp)) h2
      rw [hnone]
  · rw [if_neg (fun hh => h1 hh.1), if_neg h1]

lemma specStripSuffix_eq (name : String) (suffix : Option String) :
    specStripSuffix name suffix = stripSuffixStr name suffix := by
  cases suffix with
  | none => rfl
  | some suf =>
      rw [specStripSuffix, stripSuffixStr]
      by_cases hs : suf.data.isEmpty = true
      · have hd : suf.data = [] := by
          cases hsd : suf.data
          · rfl
          · rw [hsd] at hs; simp at hs
        rw [if_pos hs, hd]
        have hpre : ([] : List Char).isSuffixOf name.data = true := by
          simp [List.isSuffixOf, List.isPrefixOf]
        rw [if_pos hpre]
        cases name with
        | mk l => simp [String.length, List.take_length]
      · rw [if_neg hs]

lemma decide_eq_nil (l : List Char) : (decide (l = []) : Bool) = l.isEmpty := by
  cases l <;> simp

lemma exclusion_pred_eq (exclusions : List String) (d : String) :
    ((!exclusions.isEmpty) && containsAnySubstring d exclusions) =
      exclusions.any (fun x => decide (x.data ≠ []) && containsSub x.data d.data) := by
  cases exclusions with
  | nil => rfl
  | cons x xs => simp [containsAnySubstring, decide_eq_nil]

/-- Claim C6: the entry processor applies, per entry and in order, the
bracketed type-indicator strip, the exact case-sensitive suffix strip and
the case-sensitive substring exclusion (empty exclusions ignored), then
sorts survivors case-insensitively with a stable sort — it coincides with
the pipeline as worded by the specification, its output is sorted under
the lowercase comparison and is a permutation of the surviving processed
entries, and it maps the two documented examples to `["song"]` and `[]`
respectively. -/
theorem entry_processor_characterisation :
    (∀ (entries : List String) (suffix : Option String)
        (exclusions : List String),
      processInstrumentEntries entries suffix exclusions =
        processSpecification entries suffix exclusions) ∧
    (∀ (entries : List String) (suffix : Option String)
        (exclusions : List String),
      List.Sorted lowerLeP (processInstrumentEntries entries suffix exclusions)) ∧
    (∀ (entries : List String) (suffix : Option String)
        (exclusions : List String),
      List.Perm (processInstrumentEntries entries suffix exclusions)
        ((entries.map (fun e => stripSuffixStr (stripTypeIndicator e) suffix)).filter
          (fun d => !((!exclusions.isEmpty) && containsAnySubstring d exclusions)))) ∧
    (processInstrumentEntries ["[file] song_altsax.pdf"] (some "_altsax.pdf")
        ["draft"] = ["song"]) ∧
    (processInstrumentEntries ["[file] draft_altsax.pdf"] (some "_altsax.pdf")
        ["draft"] = []) := by
  refine ⟨?_, ?_, ?_, ?_, ?_⟩
  · intro entries suffix exclusions
    rw [processInstrumentEntries, processSpecification]
    simp only [specStripIndicator_eq, specStripSuffix_eq, exclusion_pred_eq]
  · intro entries suffix exclusions
    rw [processInstrumentEntries]
    exact List.sorted_insertionSort lowerLeP _
  · intro entries suffix exclusions
    rw [processInstrumentEntries]
    exact List.perm_insertionSort lowerLeP _
  · decide
  · decide

/-! Configuration (src/src/config.py) and startup orchestration
(src/src/app.py `_startup`). -/

/-- Value of a configuration attribute: either a plain string field or an
optional-string field. -/
inductive ConfigValue where
  | strVal (v : String)
  | optVal (v : Option String)
deriving DecidableEq

/-- The `AppConfig` frozen dataclass exactly as declared in
src/src/config.py (lines 75-91): its only fields are the eight below. -/
structure AppConfig where
  title : String
  loadingMessage : String
  libraryTitle : String
  libraryPath : String
  librarySuffix : Option String
  libraryPlaceholder : String
  detailTitle : String
  detailPlaceholder : String

/-- Python attribute access on an `AppConfig` instance: defined for the
eight declared dataclass fields, `none` (an AttributeError) otherwise. -/
def AppConfig.getattr (c : AppConfig) (name : String) : Option ConfigValue :=
  if name = "title" then some (ConfigValue.strVal c.title)
  else if name = "loading_message" then some (ConfigValue.strVal c.loadingMessage)
  else if name = "library_title" then some (ConfigValue.strVal c.libraryTitle)
  else if name = "library_path" then some (ConfigValue.strVal c.libraryPath)
  else if name = "library_suffix" then some (ConfigValue.optVal c.librarySuffix)
  else if name = "library_placeholder" then
    some (ConfigValue.strVal c.libraryPlaceholder)
  else if name = "detail_title" then some (ConfigValue.strVal c.detailTitle)
  else if name = "detail_placeholder" then
    some (ConfigValue.strVal c.detailPlaceholder)
  else none

/-- Read a configuration value as an optional string. -/
def ConfigValue.asOptStr : ConfigValue → Option String
  | ConfigValue.strVal v => some v
  | ConfigValue.optVal v => v

/-- Modelled from the spec: the instruments configuration surface —
`instruments_path` (optional path), `instruments_suffix` and the
comma-separated `instruments_exclude_substrings` — which §6 of the
specification lists among the consumed configuration keys and which
src/src/app.py reads, but which is missing from the `AppConfig` dataclass
in src/src/config.py. -/
structure InstAttrs where
  instrumentsPath : Option String
  instrumentsSuffix : Option String
  instrumentsExcludeSubstrings : Option String

/-- The instruments attributes as resolved through attribute access on a
real `AppConfig` value: present only when all three attributes exist. -/
def AppConfig.instAttrsLookup (c : AppConfig) : Option InstAttrs :=
  match c.getattr "instruments_path", c.getattr "instruments_suffix",
      c.getattr "instruments_exclude_substrings" with
  | some p, some s, some e =>
      some ⟨p.asOptStr, s.asOptStr, e.asOptStr⟩
  | _, _, _ => none

/-- Per-panel outcome of startup: never touched, rendered ready with the
emitted entry list, or rendered failed with the handler's message. -/
inductive PanelOutcome where
  | loading
  | ready (entries : List String)
  | failed (message : String)
deriving DecidableEq

/-- Final session state plus the two per-panel outcomes of `_startup`. -/
structure StartupResult where
  state : SessionState
  libraryPanel : PanelOutcome
  instrumentsPanel : PanelOutcome

/-- Python truthiness of an optional string (None and "" are falsy), used
by `if self.app_config.library_suffix:`. -/
def truthyOpt : Option String → Bool
  | none => false
  | some v => !v.data.isEmpty

/-- Embedding of `_startup` (src/src/app.py, lines 173-231).  The client
construction and the two `list_contents` fetch outcomes are inputs (the
gather indexes its results, so the outcome pair — not completion order —
determines the behaviour).  A missing instruments attribute bundle aborts
with the unhandled AttributeError raised at the `instruments_path` read,
before any fetched result is dispatched to a handler. -/
def startupSim (clientInit : Except String Unit) (librarySuffix : Option String)
    (instAttrs : Option InstAttrs) (libraryFetch : Except String (List String))
    (instrumentsFetch : Except String (List String)) (s : SessionState) :
    Except String StartupResult :=
  match clientInit with
  | Except.error msg =>
      Except.ok ⟨onInstrumentsError (onLibraryError s),
        PanelOutcome.failed msg, PanelOutcome.failed msg⟩
  | Except.ok _ =>
    match instAttrs with
    | none => Except.error "AttributeError: instruments_path"
    | some ia =>
      let afterLib :=
        match libraryFetch with
        | Except.error m => (onLibraryError s, PanelOutcome.failed m)
        | Except.ok entries =>
            let entries2 :=
              if truthyOpt librarySuffix then
                entries.map (fun e => stripSuffixStr e librarySuffix)
              else entries
            (onLibraryLoaded s entries2, PanelOutcome.ready entries2)
      match ia.instrumentsPath with
      | none => Except.ok ⟨afterLib.1, afterLib.2, PanelOutcome.loading⟩
      | some _ =>
        match instrumentsFetch with
        | Except.error m =>
            Except.ok ⟨onInstrumentsError afterLib.1, afterLib.2,
              PanelOutcome.failed m⟩
        | Except.ok raw =>
            let procd := processInstrumentEntries raw ia.instrumentsSuffix
              (parseExclusions ia.instrumentsExcludeSubstrings)
            Except.ok ⟨onInstrumentsLoaded afterLib.1 procd, afterLib.2,
              PanelOutcome.ready procd⟩

lemma instAttrsLookup_eq_none (c : AppConfig) : c.instAttrsLookup = none := by
  have h : c.getattr "instruments_path" = none := by simp [AppConfig.getattr]
  rw [AppConfig.instAttrsLookup, h]

lemma startupSim_appConfig_attrError (c : AppConfig) (ls : Option String)
    (lf inf : Except String (List String)) (s : SessionState) :
    startupSim (Except.ok ()) ls c.instAttrsLookup lf inf s =
      Except.error "AttributeError: instruments_path" := by
  rw [instAttrsLookup_eq_none]
  rfl

/-- Claim C10: for every value of the `AppConfig` dataclass as declared,
attribute access on `instruments_path`, `instruments_suffix` and
`instruments_exclude_substrings` fails (the fields do not exist), so the
startup sequence's unconditional `instruments_path` read makes the
instruments loading path abort with an AttributeError instead of reaching
`Ready` or `Error`. -/
theorem appconfig_missing_instrument_attributes (c : AppConfig)
    (lf inf : Except String (List String)) (s : SessionState) :
    c.getattr "instruments_path" = none ∧
    c.getattr "instruments_suffix" = none ∧
    c.getattr "instruments_exclude_substrings" = none ∧
    startupSim (Except.ok ()) c.librarySuffix c.instAttrsLookup lf inf s =
      Except.error "AttributeError: instruments_path" := by
  refine ⟨by simp [AppConfig.getattr], by simp [AppConfig.getattr],
    by simp [AppConfig.getattr], startupSim_appConfig_attrError c _ lf inf s⟩

/-- Claim C7: with the instruments configuration attributes supplied (as
the specification intends), the two startup fetches fail independently —
library failure with instruments success leaves the instruments panel
ready with the processed entries over a zero tally map while the library
panel fails with exactly the library message, and symmetrically — whereas
on every real `AppConfig` the startup aborts with an AttributeError before
either panel is populated. -/
theorem startup_fetch_isolation (p : String)
    (isuf iex librarySuffix : Option String) (m : String) (raw : List String)
    (c : AppConfig) (lf inf : Except String (List String)) :
    (∃ r, startupSim (Except.ok ()) librarySuffix (some ⟨some p, isuf, iex⟩)
        (Except.error m) (Except.ok raw) initialState = Except.ok r ∧
      r.libraryPanel = PanelOutcome.failed m ∧
      r.instrumentsPanel = PanelOutcome.ready
        (processInstrumentEntries raw isuf (parseExclusions iex)) ∧
      r.state.instrumentEntries =
        processInstrumentEntries raw isuf (parseExclusions iex) ∧
      (∀ k, dget r.state.instrumentCounts k = 0)) ∧
    (∃ r, startupSim (Except.ok ()) librarySuffix (some ⟨some p, isuf, iex⟩)
        (Except.ok raw) (Except.error m) initialState = Except.ok r ∧
      r.instrumentsPanel = PanelOutcome.failed m ∧
      r.libraryPanel = PanelOutcome.ready
        (if truthyOpt librarySuffix then
          raw.map (fun e => stripSuffixStr e librarySuffix)
        else raw) ∧
      r.state.libraryEntries =
        (if truthyOpt librarySuffix then
          raw.map (fun e => stripSuffixStr e librarySuffix)
        else raw) ∧
      r.state.selectedEntries = ∅ ∧
      r.state.instrumentCounts = []) ∧
    startupSim (Except.ok ()) c.librarySuffix c.instAttrsLookup lf inf
        initialState =
      Except.error "AttributeError: instruments_path" := by
  refine ⟨?_, ?_, startupSim_appConfig_attrError c _ lf inf initialState⟩
  · refine ⟨_, rfl, rfl, rfl, ?_, ?_⟩
    · simp [onInstrumentsLoaded]
    · intro k
      simp only [startupSim, onInstrumentsLoaded, instrumentCounts_refreshInstruments]
      rw [dget_dfromEntries]
      split <;> rfl
  · refine ⟨_, rfl, rfl, rfl, ?_, ?_, rfl⟩
    · by_cases h : truthyOpt librarySuffix = true
      · simp [startupSim, h, onLibraryLoaded, onInstrumentsError]
      · simp [startupSim, h, onLibraryLoaded, onInstrumentsError]
    · simp [startupSim, onLibraryLoaded, onInstrumentsError]

end BandDropbox
